import Mathlib

/-!
# Wwise_IDs.h: the generated identifier table

A verification development for the generated header
`Assets/StreamingAssets/Audio/Wwise_IDs.h`.  The header has no control flow:
it declares `static const AkUniqueID` constants inside nested namespaces under
`namespace AK`.  Each constant is transcribed below under its own name, the
unsigned literal `NNNU` becoming the natural number `NNN`; that every literal
also fits the 32-bit type is proved, not assumed.
-/

/-- The identifier type of the header.  `AkUniqueID` comes from the SDK header
`AK/SoundEngine/Common/AkTypes.h`, where it is a 32-bit unsigned integer; a
constant is embedded as the mathematical value of its literal. -/
abbrev AkUniqueID : Type := Nat

namespace AK

namespace EVENTS

def BLOCK_BREAK : AkUniqueID := 2687994736
def BLOCK_HIT : AkUniqueID := 2566810630
def BUBBLE_COLLECT : AkUniqueID := 2101178656
def CAT_ATTACK : AkUniqueID := 3947105714
def CAT_EAT : AkUniqueID := 3455062928
def CLOCK_CLOSE : AkUniqueID := 2563575728
def CLOCK_OPEN : AkUniqueID := 2846897348
def CLOCK_TICK : AkUniqueID := 2719257531
def CRICKET_JUMP : AkUniqueID := 515483981
def CRICKET_LAND : AkUniqueID := 3381550706
def CYBERPUNK_PLAY : AkUniqueID := 1683108213
def ELEVATOR_ARRIVE : AkUniqueID := 3929235283
def ELEVATOR_DOORS_CLOSE : AkUniqueID := 4216832672
def ELEVATOR_MOVING : AkUniqueID := 2518616252
def FLOORVINE_EATING : AkUniqueID := 2689584014
def MENU_PLAY : AkUniqueID := 105544633
def PLAY_CATPURR : AkUniqueID := 1797954987
def PLAY_EMOTION : AkUniqueID := 1222141441
def PLAY_MOSQUITO : AkUniqueID := 1534211419
def PLAYER_JUMP : AkUniqueID := 1305133589
def PLAYER_LAND : AkUniqueID := 3629196698
def PLAYER_MOVEMENT : AkUniqueID := 541470702
def PLAYER_SLIDING : AkUniqueID := 2537560909
def STEAMPUNK_PLAY : AkUniqueID := 2322496412
def STONEAGE_PLAY : AkUniqueID := 3437213870
def STOP_CAT : AkUniqueID := 704609316
def STOP_PLAYERSLIDING : AkUniqueID := 761271875
def TANK_FILL : AkUniqueID := 3580624671
def TANK_FULL : AkUniqueID := 4112977187
def UI_BIGBUTTON : AkUniqueID := 931098012
def UI_SMALLBUTTON : AkUniqueID := 507163859
def UMBRELLA_CLOSE : AkUniqueID := 3217770052
def UMBRELLA_OPEN : AkUniqueID := 89220416
def VINE_CATCH : AkUniqueID := 1532741045
def VINE_EATING : AkUniqueID := 2783995914
def VINE_HIT : AkUniqueID := 3793263743
def VINE_LASTHIT : AkUniqueID := 2514947935
def VINE_REGROW : AkUniqueID := 1476808986
def VINE_STOPRECOVERING : AkUniqueID := 239772940

end EVENTS

namespace SWITCHES

namespace FOOTSTEPS_SURFACE

def GROUP : AkUniqueID := 1162743606

namespace SWITCH

def DIRT : AkUniqueID := 2195636714
def GLASS : AkUniqueID := 2449969375
def GRASS : AkUniqueID := 4248645337
def METAL : AkUniqueID := 2473969246
def STONE : AkUniqueID := 1216965916

end SWITCH

end FOOTSTEPS_SURFACE

namespace MOVEMENT_TYPE

def GROUP : AkUniqueID := 1088160865

namespace SWITCH

def RUN : AkUniqueID := 712161704
def WALK : AkUniqueID := 2108779966

end SWITCH

end MOVEMENT_TYPE

end SWITCHES

namespace GAME_PARAMETERS

def CRICKET_SPEED : AkUniqueID := 2379434306
def DENSITY_FA_SSGRAIN : AkUniqueID := 2715217995
def IMMERSION_FA_SSGRAIN : AkUniqueID := 2481728872
def INSTRUMENT_FA_SSGRAIN : AkUniqueID := 2317409760
def MASTER_VOLUME : AkUniqueID := 4179668880
def MOSQUITO_SWARM : AkUniqueID := 3385394437
def MUSIC_VOLUME : AkUniqueID := 1006694123
def PLAYBACK_RATE : AkUniqueID := 1524500807
def PROXIMITY_FA_SSGRAIN : AkUniqueID := 1791284502
def PULL_TENSION : AkUniqueID := 2763939063
def RPM : AkUniqueID := 796049864
def RPM_FA_SSGRAIN : AkUniqueID := 1656280998
def SIMULATION_FA_SSGRAIN : AkUniqueID := 2428833394
def SS_AIR_FEAR : AkUniqueID := 1351367891
def SS_AIR_FREEFALL : AkUniqueID := 3002758120
def SS_AIR_FURY : AkUniqueID := 1029930033
def SS_AIR_MONTH : AkUniqueID := 2648548617
def SS_AIR_PRESENCE : AkUniqueID := 3847924954
def SS_AIR_RPM : AkUniqueID := 822163944
def SS_AIR_SIZE : AkUniqueID := 3074696722
def SS_AIR_STORM : AkUniqueID := 3715662592
def SS_AIR_TIMEOFDAY : AkUniqueID := 3203397129
def SS_AIR_TURBULENCE : AkUniqueID := 4160247818

end GAME_PARAMETERS

namespace BANKS

def INIT : AkUniqueID := 1355168291
def SFX : AkUniqueID := 393239870

end BANKS

namespace BUSSES

def AMBIENCE : AkUniqueID := 85412153
def DIAL : AkUniqueID := 2447300951
def MAIN_AUDIO_BUS : AkUniqueID := 2246998526
def MUSIC : AkUniqueID := 3991942870
def SFX : AkUniqueID := 393239870
def UI : AkUniqueID := 1551306167

end BUSSES

namespace AUDIO_DEVICES

def DEFAULT_MOTION_DEVICE : AkUniqueID := 4230635974
def NO_OUTPUT : AkUniqueID := 2317455096
def SYSTEM : AkUniqueID := 3859886410

end AUDIO_DEVICES

end AK

/-- One declaration of the header: the namespaces enclosing it below `AK`
(outermost first), the C identifier, and the declared value. -/
structure Constant where
  scope : List String
  ident : String
  value : AkUniqueID
deriving DecidableEq, Repr

/-- Every declaration of the header, in source order. -/
def declared : List Constant := [
  Constant.mk ["EVENTS"] "BLOCK_BREAK" AK.EVENTS.BLOCK_BREAK,
  Constant.mk ["EVENTS"] "BLOCK_HIT" AK.EVENTS.BLOCK_HIT,
  Constant.mk ["EVENTS"] "BUBBLE_COLLECT" AK.EVENTS.BUBBLE_COLLECT,
  Constant.mk ["EVENTS"] "CAT_ATTACK" AK.EVENTS.CAT_ATTACK,
  Constant.mk ["EVENTS"] "CAT_EAT" AK.EVENTS.CAT_EAT,
  Constant.mk ["EVENTS"] "CLOCK_CLOSE" AK.EVENTS.CLOCK_CLOSE,
  Constant.mk ["EVENTS"] "CLOCK_OPEN" AK.EVENTS.CLOCK_OPEN,
  Constant.mk ["EVENTS"] "CLOCK_TICK" AK.EVENTS.CLOCK_TICK,
  Constant.mk ["EVENTS"] "CRICKET_JUMP" AK.EVENTS.CRICKET_JUMP,
  Constant.mk ["EVENTS"] "CRICKET_LAND" AK.EVENTS.CRICKET_LAND,
  Constant.mk ["EVENTS"] "CYBERPUNK_PLAY" AK.EVENTS.CYBERPUNK_PLAY,
  Constant.mk ["EVENTS"] "ELEVATOR_ARRIVE" AK.EVENTS.ELEVATOR_ARRIVE,
  Constant.mk ["EVENTS"] "ELEVATOR_DOORS_CLOSE" AK.EVENTS.ELEVATOR_DOORS_CLOSE,
  Constant.mk ["EVENTS"] "ELEVATOR_MOVING" AK.EVENTS.ELEVATOR_MOVING,
  Constant.mk ["EVENTS"] "FLOORVINE_EATING" AK.EVENTS.FLOORVINE_EATING,
  Constant.mk ["EVENTS"] "MENU_PLAY" AK.EVENTS.MENU_PLAY,
  Constant.mk ["EVENTS"] "PLAY_CATPURR" AK.EVENTS.PLAY_CATPURR,
  Constant.mk ["EVENTS"] "PLAY_EMOTION" AK.EVENTS.PLAY_EMOTION,
  Constant.mk ["EVENTS"] "PLAY_MOSQUITO" AK.EVENTS.PLAY_MOSQUITO,
  Constant.mk ["EVENTS"] "PLAYER_JUMP" AK.EVENTS.PLAYER_JUMP,
  Constant.mk ["EVENTS"] "PLAYER_LAND" AK.EVENTS.PLAYER_LAND,
  Constant.mk ["EVENTS"] "PLAYER_MOVEMENT" AK.EVENTS.PLAYER_MOVEMENT,
  Constant.mk ["EVENTS"] "PLAYER_SLIDING" AK.EVENTS.PLAYER_SLIDING,
  Constant.mk ["EVENTS"] "STEAMPUNK_PLAY" AK.EVENTS.STEAMPUNK_PLAY,
  Constant.mk ["EVENTS"] "STONEAGE_PLAY" AK.EVENTS.STONEAGE_PLAY,
  Constant.mk ["EVENTS"] "STOP_CAT" AK.EVENTS.STOP_CAT,
  Constant.mk ["EVENTS"] "STOP_PLAYERSLIDING" AK.EVENTS.STOP_PLAYERSLIDING,
  Constant.mk ["EVENTS"] "TANK_FILL" AK.EVENTS.TANK_FILL,
  Constant.mk ["EVENTS"] "TANK_FULL" AK.EVENTS.TANK_FULL,
  Constant.mk ["EVENTS"] "UI_BIGBUTTON" AK.EVENTS.UI_BIGBUTTON,
  Constant.mk ["EVENTS"] "UI_SMALLBUTTON" AK.EVENTS.UI_SMALLBUTTON,
  Constant.mk ["EVENTS"] "UMBRELLA_CLOSE" AK.EVENTS.UMBRELLA_CLOSE,
  Constant.mk ["EVENTS"] "UMBRELLA_OPEN" AK.EVENTS.UMBRELLA_OPEN,
  Constant.mk ["EVENTS"] "VINE_CATCH" AK.EVENTS.VINE_CATCH,
  Constant.mk ["EVENTS"] "VINE_EATING" AK.EVENTS.VINE_EATING,
  Constant.mk ["EVENTS"] "VINE_HIT" AK.EVENTS.VINE_HIT,
  Constant.mk ["EVENTS"] "VINE_LASTHIT" AK.EVENTS.VINE_LASTHIT,
  Constant.mk ["EVENTS"] "VINE_REGROW" AK.EVENTS.VINE_REGROW,
  Constant.mk ["EVENTS"] "VINE_STOPRECOVERING" AK.EVENTS.VINE_STOPRECOVERING,
  Constant.mk ["SWITCHES", "FOOTSTEPS_SURFACE"] "GROUP" AK.SWITCHES.FOOTSTEPS_SURFACE.GROUP,
  Constant.mk ["SWITCHES", "FOOTSTEPS_SURFACE", "SWITCH"] "DIRT" AK.SWITCHES.FOOTSTEPS_SURFACE.SWITCH.DIRT,
  Constant.mk ["SWITCHES", "FOOTSTEPS_SURFACE", "SWITCH"] "GLASS" AK.SWITCHES.FOOTSTEPS_SURFACE.SWITCH.GLASS,
  Constant.mk ["SWITCHES", "FOOTSTEPS_SURFACE", "SWITCH"] "GRASS" AK.SWITCHES.FOOTSTEPS_SURFACE.SWITCH.GRASS,
  Constant.mk ["SWITCHES", "FOOTSTEPS_SURFACE", "SWITCH"] "METAL" AK.SWITCHES.FOOTSTEPS_SURFACE.SWITCH.METAL,
  Constant.mk ["SWITCHES", "FOOTSTEPS_SURFACE", "SWITCH"] "STONE" AK.SWITCHES.FOOTSTEPS_SURFACE.SWITCH.STONE,
  Constant.mk ["SWITCHES", "MOVEMENT_TYPE"] "GROUP" AK.SWITCHES.MOVEMENT_TYPE.GROUP,
  Constant.mk ["SWITCHES", "MOVEMENT_TYPE", "SWITCH"] "RUN" AK.SWITCHES.MOVEMENT_TYPE.SWITCH.RUN,
  Constant.mk ["SWITCHES", "MOVEMENT_TYPE", "SWITCH"] "WALK" AK.SWITCHES.MOVEMENT_TYPE.SWITCH.WALK,
  Constant.mk ["GAME_PARAMETERS"] "CRICKET_SPEED" AK.GAME_PARAMETERS.CRICKET_SPEED,
  Constant.mk ["GAME_PARAMETERS"] "DENSITY_FA_SSGRAIN" AK.GAME_PARAMETERS.DENSITY_FA_SSGRAIN,
  Constant.mk ["GAME_PARAMETERS"] "IMMERSION_FA_SSGRAIN" AK.GAME_PARAMETERS.IMMERSION_FA_SSGRAIN,
  Constant.mk ["GAME_PARAMETERS"] "INSTRUMENT_FA_SSGRAIN" AK.GAME_PARAMETERS.INSTRUMENT_FA_SSGRAIN,
  Constant.mk ["GAME_PARAMETERS"] "MASTER_VOLUME" AK.GAME_PARAMETERS.MASTER_VOLUME,
  Constant.mk ["GAME_PARAMETERS"] "MOSQUITO_SWARM" AK.GAME_PARAMETERS.MOSQUITO_SWARM,
  Constant.mk ["GAME_PARAMETERS"] "MUSIC_VOLUME" AK.GAME_PARAMETERS.MUSIC_VOLUME,
  Constant.mk ["GAME_PARAMETERS"] "PLAYBACK_RATE" AK.GAME_PARAMETERS.PLAYBACK_RATE,
  Constant.mk ["GAME_PARAMETERS"] "PROXIMITY_FA_SSGRAIN" AK.GAME_PARAMETERS.PROXIMITY_FA_SSGRAIN,
  Constant.mk ["GAME_PARAMETERS"] "PULL_TENSION" AK.GAME_PARAMETERS.PULL_TENSION,
  Constant.mk ["GAME_PARAMETERS"] "RPM" AK.GAME_PARAMETERS.RPM,
  Constant.mk ["GAME_PARAMETERS"] "RPM_FA_SSGRAIN" AK.GAME_PARAMETERS.RPM_FA_SSGRAIN,
  Constant.mk ["GAME_PARAMETERS"] "SIMULATION_FA_SSGRAIN" AK.GAME_PARAMETERS.SIMULATION_FA_SSGRAIN,
  Constant.mk ["GAME_PARAMETERS"] "SS_AIR_FEAR" AK.GAME_PARAMETERS.SS_AIR_FEAR,
  Constant.mk ["GAME_PARAMETERS"] "SS_AIR_FREEFALL" AK.GAME_PARAMETERS.SS_AIR_FREEFALL,
  Constant.mk ["GAME_PARAMETERS"] "SS_AIR_FURY" AK.GAME_PARAMETERS.SS_AIR_FURY,
  Constant.mk ["GAME_PARAMETERS"] "SS_AIR_MONTH" AK.GAME_PARAMETERS.SS_AIR_MONTH,
  Constant.mk ["GAME_PARAMETERS"] "SS_AIR_PRESENCE" AK.GAME_PARAMETERS.SS_AIR_PRESENCE,
  Constant.mk ["GAME_PARAMETERS"] "SS_AIR_RPM" AK.GAME_PARAMETERS.SS_AIR_RPM,
  Constant.mk ["GAME_PARAMETERS"] "SS_AIR_SIZE" AK.GAME_PARAMETERS.SS_AIR_SIZE,
  Constant.mk ["GAME_PARAMETERS"] "SS_AIR_STORM" AK.GAME_PARAMETERS.SS_AIR_STORM,
  Constant.mk ["GAME_PARAMETERS"] "SS_AIR_TIMEOFDAY" AK.GAME_PARAMETERS.SS_AIR_TIMEOFDAY,
  Constant.mk ["GAME_PARAMETERS"] "SS_AIR_TURBULENCE" AK.GAME_PARAMETERS.SS_AIR_TURBULENCE,
  Constant.mk ["BANKS"] "INIT" AK.BANKS.INIT,
  Constant.mk ["BANKS"] "SFX" AK.BANKS.SFX,
  Constant.mk ["BUSSES"] "AMBIENCE" AK.BUSSES.AMBIENCE,
  Constant.mk ["BUSSES"] "DIAL" AK.BUSSES.DIAL,
  Constant.mk ["BUSSES"] "MAIN_AUDIO_BUS" AK.BUSSES.MAIN_AUDIO_BUS,
  Constant.mk ["BUSSES"] "MUSIC" AK.BUSSES.MUSIC,
  Constant.mk ["BUSSES"] "SFX" AK.BUSSES.SFX,
  Constant.mk ["BUSSES"] "UI" AK.BUSSES.UI,
  Constant.mk ["AUDIO_DEVICES"] "DEFAULT_MOTION_DEVICE" AK.AUDIO_DEVICES.DEFAULT_MOTION_DEVICE,
  Constant.mk ["AUDIO_DEVICES"] "NO_OUTPUT" AK.AUDIO_DEVICES.NO_OUTPUT,
  Constant.mk ["AUDIO_DEVICES"] "SYSTEM" AK.AUDIO_DEVICES.SYSTEM
]

/-- The declaration `AK::BANKS::INIT`. -/
def BANKS_INIT : Constant :=
  Constant.mk ["BANKS"] "INIT" AK.BANKS.INIT

/-- The declaration `AK::BANKS::SFX`. -/
def BANKS_SFX : Constant :=
  Constant.mk ["BANKS"] "SFX" AK.BANKS.SFX

/-- The declaration `AK::BUSSES::SFX`. -/
def BUSSES_SFX : Constant :=
  Constant.mk ["BUSSES"] "SFX" AK.BUSSES.SFX

/-- The declaration `AK::BUSSES::MAIN_AUDIO_BUS`. -/
def BUSSES_MAIN_AUDIO_BUS : Constant :=
  Constant.mk ["BUSSES"] "MAIN_AUDIO_BUS" AK.BUSSES.MAIN_AUDIO_BUS

/-- The declaration `AK::SWITCHES::MOVEMENT_TYPE::SWITCH::RUN`. -/
def MOVEMENT_TYPE_RUN : Constant :=
  Constant.mk ["SWITCHES", "MOVEMENT_TYPE", "SWITCH"] "RUN" AK.SWITCHES.MOVEMENT_TYPE.SWITCH.RUN

/-- The top-level namespaces whose constants are declared directly inside
them; `SWITCHES` is the one namespace with nested switch groups. -/
def flatCategories : List String :=
  ["EVENTS", "GAME_PARAMETERS", "BANKS", "BUSSES", "AUDIO_DEVICES"]

/-- The declarations made directly inside the top-level namespace `c`. -/
def category (c : String) : List Constant :=
  declared.filter (fun k => k.scope = [c])

/-- The declarations made anywhere below the top-level namespace `c`. -/
def below (c : String) : List Constant :=
  declared.filter (fun k => k.scope.head? = some c)

/-- The fully qualified C++ name of a declaration, `AK::...::IDENT`. -/
def qualifiedName (k : Constant) : String :=
  "::".intercalate ("AK" :: k.scope ++ [k.ident])

/-- ASCII lower-casing of a string. -/
def lower (s : String) : String :=
  String.mk (s.toList.map Char.toLower)

/-- The name read off the C declaration, lower-cased: for a `GROUP` constant
the enclosing switch-group namespace, for every other constant its own
identifier. -/
def identName (k : Constant) : String :=
  lower (if k.ident = "GROUP" then k.scope.getLast?.getD k.ident else k.ident)

/-- The name whose hash the declared value is: `identName`, except that the
bus declared as `MAIN_AUDIO_BUS` has blanks where its identifier has
underscores (a C identifier cannot hold a blank). -/
def hashedName (k : Constant) : String :=
  if k = BUSSES_MAIN_AUDIO_BUS then "main audio bus" else identName k

/-- Specification side of the hash comparison, following the description of
the generator: one round of 32-bit FNV-1 multiplies by the prime `16777619`
modulo `2^32`, then xors the byte in. -/
def fnv1Step (h c : Nat) : Nat :=
  ((h * 16777619) % 2 ^ 32) ^^^ c

/-- Specification side of the hash comparison: the 32-bit FNV-1 hash of a byte
sequence, from the offset basis `2166136261`. -/
def fnv1 (bytes : List Nat) : Nat :=
  bytes.foldl fnv1Step 2166136261

/-- The 32-bit FNV-1 hash of an ASCII string, one byte per character. -/
def fnv1Hash (s : String) : Nat :=
  fnv1 (s.toList.map Char.toNat)

/-- The number of different values carried by a list of declarations. -/
def distinctValues (l : List Constant) : Nat :=
  (l.map (fun k => k.value)).dedup.length

/-! ## Theorems -/

set_option maxRecDepth 1000000

/-- Claim C1: the flat categories EVENTS, GAME_PARAMETERS, BANKS, BUSSES and
AUDIO_DEVICES declare 39, 23, 2, 6 and 3 constants, and inside each of them
two constants with different identifiers have different values. -/
theorem flat_category_values_distinct :
    (category "EVENTS").length = 39 ∧
    (category "GAME_PARAMETERS").length = 23 ∧
    (category "BANKS").length = 2 ∧
    (category "BUSSES").length = 6 ∧
    (category "AUDIO_DEVICES").length = 3 ∧
    ∀ c ∈ flatCategories, ∀ a ∈ category c, ∀ b ∈ category c,
      a.ident ≠ b.ident → a.value ≠ b.value := by
  decide

/-- Witness for C1: `INIT` and `SFX` of the category BANKS. -/
theorem flat_category_values_distinct_witness :
    "BANKS" ∈ flatCategories ∧ BANKS_INIT ∈ category "BANKS" ∧
    BANKS_SFX ∈ category "BANKS" ∧ BANKS_INIT.ident ≠ BANKS_SFX.ident ∧
    BANKS_INIT.value ≠ BANKS_SFX.value :=
  ⟨by decide, by decide, by decide, by decide,
    flat_category_values_distinct.2.2.2.2.2 "BANKS" (by decide)
      BANKS_INIT (by decide) BANKS_SFX (by decide) (by decide)⟩

/-- Claim C2, as stated, fails: the table has 82 declarations and not 84, and
the value of `BUSSES::MAIN_AUDIO_BUS` (2246998526) is not the FNV-1 hash of
its lower-cased identifier `main_audio_bus` (253003338). -/
theorem main_audio_bus_not_hash_of_identifier :
    BUSSES_MAIN_AUDIO_BUS ∈ declared ∧
    identName BUSSES_MAIN_AUDIO_BUS = "main_audio_bus" ∧
    fnv1Hash (identName BUSSES_MAIN_AUDIO_BUS) = 253003338 ∧
    BUSSES_MAIN_AUDIO_BUS.value = 2246998526 ∧
    ¬ (declared.length = 84 ∧ ∀ k ∈ declared, fnv1Hash (identName k) = k.value) := by
  decide

/-- Claim C2, amended: each of the 82 declared values is the 32-bit FNV-1 hash
of the lower-cased name read off its declaration (for a `GROUP` constant the
enclosing switch-group namespace), except `BUSSES::MAIN_AUDIO_BUS`, whose value
is the hash of `main audio bus`, blanks in place of the underscores. -/
theorem identifiers_are_fnv1_hashes :
    declared.length = 82 ∧
    (∀ k ∈ declared, k ≠ BUSSES_MAIN_AUDIO_BUS → fnv1Hash (identName k) = k.value) ∧
    fnv1Hash "main audio bus" = BUSSES_MAIN_AUDIO_BUS.value ∧
    (∀ k ∈ declared, fnv1Hash (hashedName k) = k.value) ∧
    fnv1Hash "sfx" = 393239870 ∧ fnv1Hash "init" = 1355168291 ∧
    fnv1Hash "footsteps_surface" = 1162743606 ∧
    fnv1Hash "movement_type" = 1088160865 ∧
    (declared.filter (fun k => k.ident = "GROUP")).map identName
      = ["footsteps_surface", "movement_type"] := by
  decide

/-- Witness for C2 (amended): `BANKS::SFX` hashes from `sfx`. -/
theorem identifiers_are_fnv1_hashes_witness :
    BANKS_SFX ∈ declared ∧ BANKS_SFX ≠ BUSSES_MAIN_AUDIO_BUS ∧
    fnv1Hash (identName BANKS_SFX) = BANKS_SFX.value :=
  ⟨by decide, by decide,
    identifiers_are_fnv1_hashes.2.1 BANKS_SFX (by decide) (by decide)⟩

/-- Claim C3: two declarations with the same name have the same value, whether
the name is taken as the lower-cased identifier or as the hashed name; the one
pair of different declarations sharing a name is `BANKS::SFX` and
`BUSSES::SFX`, both 393239870. -/
theorem same_name_same_value :
    (∀ a ∈ declared, ∀ b ∈ declared, identName a = identName b → a.value = b.value) ∧
    (∀ a ∈ declared, ∀ b ∈ declared, hashedName a = hashedName b → a.value = b.value) ∧
    (∀ a ∈ declared, ∀ b ∈ declared, a ≠ b → identName a = identName b →
      (a = BANKS_SFX ∧ b = BUSSES_SFX) ∨ (a = BUSSES_SFX ∧ b = BANKS_SFX)) ∧
    BANKS_SFX ∈ declared ∧ BUSSES_SFX ∈ declared ∧ BANKS_SFX ≠ BUSSES_SFX ∧
    identName BANKS_SFX = identName BUSSES_SFX ∧
    BANKS_SFX.value = 393239870 ∧ BUSSES_SFX.value = 393239870 := by
  decide

/-- Witness for C3: the bank `SFX` and the bus `SFX`. -/
theorem same_name_same_value_witness :
    BANKS_SFX ∈ declared ∧ BUSSES_SFX ∈ declared ∧
    identName BANKS_SFX = identName BUSSES_SFX ∧
    BANKS_SFX.value = BUSSES_SFX.value :=
  ⟨by decide, by decide, by decide,
    same_name_same_value.1 BANKS_SFX (by decide) BUSSES_SFX (by decide) (by decide)⟩

/-- Claim C4: the nine identifiers declared under SWITCHES (two group
identifiers, five values of FOOTSTEPS_SURFACE, two values of MOVEMENT_TYPE)
are pairwise distinct. -/
theorem switch_identifiers_distinct :
    (below "SWITCHES").map (fun k => k.value) =
      [AK.SWITCHES.FOOTSTEPS_SURFACE.GROUP,
       AK.SWITCHES.FOOTSTEPS_SURFACE.SWITCH.DIRT,
       AK.SWITCHES.FOOTSTEPS_SURFACE.SWITCH.GLASS,
       AK.SWITCHES.FOOTSTEPS_SURFACE.SWITCH.GRASS,
       AK.SWITCHES.FOOTSTEPS_SURFACE.SWITCH.METAL,
       AK.SWITCHES.FOOTSTEPS_SURFACE.SWITCH.STONE,
       AK.SWITCHES.MOVEMENT_TYPE.GROUP,
       AK.SWITCHES.MOVEMENT_TYPE.SWITCH.RUN,
       AK.SWITCHES.MOVEMENT_TYPE.SWITCH.WALK] ∧
    List.Pairwise (fun x y => x ≠ y) ((below "SWITCHES").map (fun k => k.value)) := by
  decide

/-- Claim C5, as stated, fails on the count: the table has 82 fully qualified
names, not 84. -/
theorem qualified_names_not_84 :
    (declared.map qualifiedName).length = 82 ∧
    ¬ ((declared.map qualifiedName).length = 84 ∧ (declared.map qualifiedName).Nodup) := by
  decide

/-- Claim C5, amended: the 82 fully qualified names of the table are pairwise
distinct, so a qualified name determines its declaration and its value. -/
theorem qualified_names_distinct :
    (declared.map qualifiedName).length = 82 ∧
    (declared.map qualifiedName).Nodup ∧
    qualifiedName MOVEMENT_TYPE_RUN = "AK::SWITCHES::MOVEMENT_TYPE::SWITCH::RUN" ∧
    ∀ a ∈ declared, ∀ b ∈ declared,
      qualifiedName a = qualifiedName b → a = b ∧ a.value = b.value := by
  decide

/-- Witness for C5 (amended): the declaration of `RUN` against itself. -/
theorem qualified_names_distinct_witness :
    MOVEMENT_TYPE_RUN ∈ declared ∧
    qualifiedName MOVEMENT_TYPE_RUN = qualifiedName MOVEMENT_TYPE_RUN ∧
    MOVEMENT_TYPE_RUN = MOVEMENT_TYPE_RUN ∧
    MOVEMENT_TYPE_RUN.value = MOVEMENT_TYPE_RUN.value :=
  ⟨by decide, rfl,
    qualified_names_distinct.2.2.2 MOVEMENT_TYPE_RUN (by decide)
      MOVEMENT_TYPE_RUN (by decide) rfl⟩

/-- Claim C6: every declared value lies in `[0, 2^32)`, so the literal is
unchanged by reduction modulo `2^32`. -/
theorem values_fit_32_bits :
    ∀ k ∈ declared, 0 ≤ k.value ∧ k.value < 4294967296 ∧ k.value % 2 ^ 32 = k.value := by
  decide

/-- Witness for C6: the largest value of the table, `DEFAULT_MOTION_DEVICE`. -/
theorem values_fit_32_bits_witness :
    Constant.mk ["AUDIO_DEVICES"] "DEFAULT_MOTION_DEVICE"
        AK.AUDIO_DEVICES.DEFAULT_MOTION_DEVICE ∈ declared ∧
    AK.AUDIO_DEVICES.DEFAULT_MOTION_DEVICE < 4294967296 :=
  ⟨by decide,
    (values_fit_32_bits (Constant.mk ["AUDIO_DEVICES"] "DEFAULT_MOTION_DEVICE"
        AK.AUDIO_DEVICES.DEFAULT_MOTION_DEVICE) (by decide)).2.1⟩

/-- Claim C8, as stated, fails on the counts: the table has 82 declarations
carrying 81 distinct values, not 84 carrying 83. -/
theorem not_84_constants_83_values :
    declared.length = 82 ∧ distinctValues declared = 81 ∧
    ¬ (declared.length = 84 ∧ distinctValues declared = 83) := by
  decide

/-- Claim C8, amended: over the whole table equal values force equal names;
the only pair of different declarations with equal values is `BANKS::SFX` and
`BUSSES::SFX`, and the 82 declarations carry exactly 81 distinct values. -/
theorem no_collision_between_names :
    (∀ a ∈ declared, ∀ b ∈ declared, a.value = b.value → identName a = identName b) ∧
    (∀ a ∈ declared, ∀ b ∈ declared, a.value = b.value → hashedName a = hashedName b) ∧
    (∀ a ∈ declared, ∀ b ∈ declared, a ≠ b → a.value = b.value →
      (a = BANKS_SFX ∧ b = BUSSES_SFX) ∨ (a = BUSSES_SFX ∧ b = BANKS_SFX)) ∧
    declared.length = 82 ∧ distinctValues declared = 81 := by
  decide

/-- Witness for C8 (amended): the bus `SFX` and the bank `SFX`. -/
theorem no_collision_between_names_witness :
    BUSSES_SFX ∈ declared ∧ BANKS_SFX ∈ declared ∧
    BUSSES_SFX.value = BANKS_SFX.value ∧
    identName BUSSES_SFX = identName BANKS_SFX :=
  ⟨by decide, by decide, by decide,
    no_collision_between_names.1 BUSSES_SFX (by decide) BANKS_SFX (by decide) (by decide)⟩

/-- Claim C9: no declared value is 0, the invalid unique ID. -/
theorem values_nonzero :
    ∀ k ∈ declared, k.value ≠ 0 := by
  decide

/-- Witness for C9: the smallest value of the table, `BUSSES::AMBIENCE`. -/
theorem values_nonzero_witness :
    Constant.mk ["BUSSES"] "AMBIENCE" AK.BUSSES.AMBIENCE ∈ declared ∧
    AK.BUSSES.AMBIENCE ≠ 0 :=
  ⟨by decide,
    values_nonzero (Constant.mk ["BUSSES"] "AMBIENCE" AK.BUSSES.AMBIENCE) (by decide)⟩
